import Mathlib

/-!
Verification of the conversation-orchestration engine of the Dexter
financial-analyst agent: the error classifier, retry executor and rate
limiter of `lib/ai/error_handler.py`, the token estimator and history
trimmer of `lib/ai/openai_service.py`, and the tool dispatcher and
function-calling chat loop of `main.py`, shallowly embedded as executable
Lean functions. Stateful code is modelled by explicit state passing;
Python exceptions by `Except`; the wall clock by an explicit rational
`now` argument, with `asyncio.sleep w` advancing it by exactly `w`.
-/

/-! ## String helpers (Python `str.lower` and the `in` substring test) -/

/-- ASCII lowercasing of one character, as Python `str.lower` acts on the
ASCII marker strings matched by `classify_error`
(`lib/ai/error_handler.py`, line 86 lowercases the error text). -/
def charLower (c : Char) : Char :=
  if 65 ≤ c.toNat ∧ c.toNat ≤ 90 then Char.ofNat (c.toNat + 32) else c

/-- Python `str.lower` over a whole string (ASCII case folding). -/
def pyLower (s : String) : String := String.mk (s.data.map charLower)

/-- Python substring membership `pat in s`: `pat` occurs contiguously in `s`. -/
def strContains (s pat : String) : Bool := decide (pat.data <:+: s.data)

/-! ## Error classifier (`lib/ai/error_handler.py`, lines 19-109) -/

/-- Shallow embedding of the `OpenAIError` exception hierarchy
(`error_handler.py` lines 19-73): message, optional HTTP status code,
retryability flag and optional suggested wait in seconds. -/
structure OpenAIError where
  message : String
  status_code : Option Int
  retryable : Bool
  retry_after : Option Int
deriving DecidableEq

/-- Constructor of `RateLimitError(message, retry_after)` (lines 36-45):
status 429, retryable, carries the wait. -/
def RateLimitError (message : String) (retry_after : Int) : OpenAIError :=
  { message := message, status_code := some 429, retryable := true,
    retry_after := some retry_after }

/-- Constructor of `AuthenticationError(message)` (lines 48-52): status 401,
not retryable. -/
def AuthenticationError (message : String) : OpenAIError :=
  { message := message, status_code := some 401, retryable := false,
    retry_after := none }

/-- Constructor of `InvalidRequestError(message)` (lines 55-59): status 400,
not retryable. -/
def InvalidRequestError (message : String) : OpenAIError :=
  { message := message, status_code := some 400, retryable := false,
    retry_after := none }

/-- Constructor of `ServiceUnavailableError(message)` (lines 62-66): status
503, retryable, wait 30 seconds. -/
def ServiceUnavailableError (message : String) : OpenAIError :=
  { message := message, status_code := some 503, retryable := true,
    retry_after := some 30 }

/-- Constructor of `ContextLengthExceededError(message)` (lines 69-73):
status 400, not retryable. -/
def ContextLengthExceededError (message : String) : OpenAIError :=
  { message := message, status_code := some 400, retryable := false,
    retry_after := none }

/-- Generic `OpenAIError(message, retryable=True)` built for unclassified
errors at line 109: no status code, retryable, no wait. -/
def UnknownOpenAIError (message : String) : OpenAIError :=
  { message := message, status_code := none, retryable := true,
    retry_after := none }

/-- Rate-limit markers of `classify_error` line 89: "rate limit" or "429". -/
def rateLimitMarker (error_str : String) : Bool :=
  strContains error_str "rate limit" || strContains error_str "429"

/-- Authentication markers of line 93: "authentication", "401" or "api key". -/
def authMarker (error_str : String) : Bool :=
  strContains error_str "authentication" || strContains error_str "401" ||
    strContains error_str "api key"

/-- Invalid-request markers of line 97: "400" or "invalid". -/
def invalidMarker (error_str : String) : Bool :=
  strContains error_str "400" || strContains error_str "invalid"

/-- Service-unavailable markers of line 101: "503", "unavailable", "timeout". -/
def unavailableMarker (error_str : String) : Bool :=
  strContains error_str "503" || strContains error_str "unavailable" ||
    strContains error_str "timeout"

/-- Context-length markers of line 105: "context length" or "token limit". -/
def contextMarker (error_str : String) : Bool :=
  strContains error_str "context length" || strContains error_str "token limit"

/-- Embedding of `classify_error(error)` (`error_handler.py` lines 76-109) over
the error's textual description `str(error)`: lowercase the text, then run
the first-match-wins substring tests in source order. `classify_error`
constructs `RateLimitError(str(error))` with the default wait of 60. -/
def classify_error (error : String) : OpenAIError :=
  let error_str := pyLower error
  if rateLimitMarker error_str then RateLimitError error 60
  else if authMarker error_str then AuthenticationError error
  else if invalidMarker error_str then InvalidRequestError error
  else if unavailableMarker error_str then ServiceUnavailableError error
  else if contextMarker error_str then ContextLengthExceededError error
  else UnknownOpenAIError error

/-! ## Retry executor (`lib/ai/error_handler.py`, lines 112-179)

The wrapped operation is modelled as a map from the call index (how many
times it was invoked before) to either a returned value or the textual
description of the exception it raises. -/

/-- What one `with_retry` run produces: the final outcome (value returned, or
the classified error raised), how many times the operation was invoked, and
the delays passed to `asyncio.sleep` between attempts, in order. -/
structure RetryOutcome (α : Type) where
  result : Except OpenAIError α
  calls : Nat
  delays : List ℚ

instance {ε α : Type} [DecidableEq ε] [DecidableEq α] : DecidableEq (Except ε α)
  | .ok a, .ok b => decidable_of_iff (a = b) (by simp)
  | .ok _, .error _ => isFalse (by simp)
  | .error _, .ok _ => isFalse (by simp)
  | .error a, .error b => decidable_of_iff (a = b) (by simp)

instance {α : Type} [DecidableEq α] : DecidableEq (RetryOutcome α) :=
  fun a b => decidable_of_iff
    (a.result = b.result ∧ a.calls = b.calls ∧ a.delays = b.delays)
    (by cases a; cases b; simp)

/-- The `OpenAIError("Unexpected error in retry logic")` raised by the
unreachable fall-through after the retry loop (`error_handler.py` line 179);
the base-class defaults are status `None`, not retryable, no wait. -/
def unexpectedRetryLogicError : OpenAIError :=
  { message := "Unexpected error in retry logic", status_code := none,
    retryable := false, retry_after := none }

/-- Delay computation of `with_retry` lines 161-167: a truthy
`classified_error.retry_after` (not `None`, not 0) wins; otherwise
`base_delay * 2 ** attempt` under exponential backoff, else `base_delay`. -/
def retryDelay (classified_error : OpenAIError) (base_delay : ℚ)
    (exponential_backoff : Bool) (attempt : Nat) : ℚ :=
  if classified_error.retry_after.getD 0 ≠ 0 then
    ((classified_error.retry_after.getD 0 : Int) : ℚ)
  else if exponential_backoff then base_delay * 2 ^ attempt
  else base_delay

/-- The `for attempt in range(max_retries + 1)` loop of `with_retry`
(lines 139-179): `attempt` is the Python loop variable, `fuel` the number of
iterations the range still allows (`max_retries + 1 - attempt`). On success
return the value; on failure classify, raise at once when not retryable or
when `attempt >= max_retries`, else sleep the computed delay and retry. The
fuel-exhausted branch embeds the unreachable fall-through after the loop
(lines 176-179, `OpenAIError("Unexpected error in retry logic")`). -/
def with_retry_go {α : Type} (op : Nat → Except String α) (max_retries : Nat)
    (base_delay : ℚ) (exponential_backoff : Bool) :
    Nat → Nat → RetryOutcome α
  | _attempt, 0 =>
    { result := .error unexpectedRetryLogicError, calls := 0, delays := [] }
  | attempt, fuel + 1 =>
    match op attempt with
    | .ok v => { result := .ok v, calls := 1, delays := [] }
    | .error e =>
      let classified_error := classify_error e
      if classified_error.retryable = false then
        { result := .error classified_error, calls := 1, delays := [] }
      else if max_retries ≤ attempt then
        { result := .error classified_error, calls := 1, delays := [] }
      else
        let delay := retryDelay classified_error base_delay exponential_backoff attempt
        let rest := with_retry_go op max_retries base_delay exponential_backoff
          (attempt + 1) fuel
        { result := rest.result, calls := rest.calls + 1, delays := delay :: rest.delays }

/-- Embedding of `with_retry(func, max_retries, base_delay,
exponential_backoff)` (`error_handler.py` lines 112-179): run the operation
up to `max_retries + 1` times, classify each failure, fail fast on
non-retryable ones, raise the classified error once attempts are spent. -/
def with_retry {α : Type} (op : Nat → Except String α) (max_retries : Nat)
    (base_delay : ℚ) (exponential_backoff : Bool) : RetryOutcome α :=
  with_retry_go op max_retries base_delay exponential_backoff 0 (max_retries + 1)

/-! ## Rate limiter (`lib/ai/error_handler.py`, lines 215-255) -/

/-- How a modelled `acquire` call can fail: `indexError` is the
`self.requests[0]` access on an empty pruned list; `outOfFuel` marks
recursion deeper than the supplied bound (shown unreachable for the bound
used by `acquire` below). -/
inductive AcquireErr where
  | indexError : AcquireErr
  | outOfFuel : AcquireErr
deriving DecidableEq

/-- Embedding of `RateLimiter.acquire` (`error_handler.py` lines 234-255)
with explicit state: `requests` is `self.requests`, `now` the value of
`time.time()`; `await asyncio.sleep(wait_time)` advances the clock by exactly
`wait_time` before the recursive call re-reads it. Prune timestamps at or
before `now - time_window`; when the remaining count reaches
`max_requests`, read the oldest retained timestamp (an index error if there
is none), wait until it leaves the window and recurse; otherwise append the
current time. Returns the updated request list and the recorded time. -/
def acquireGo (max_requests : Nat) (time_window : ℚ) (fuel : Nat)
    (requests : List ℚ) (now : ℚ) : Except AcquireErr (List ℚ × ℚ) :=
  let pruned := requests.filter fun ts => now - time_window < ts
  if max_requests ≤ pruned.length then
    match pruned with
    | [] => .error .indexError
    | oldest :: _ =>
      let wait_time := time_window - (now - oldest)
      if 0 < wait_time then
        match fuel with
        | 0 => .error .outOfFuel
        | fuel' + 1 =>
          acquireGo max_requests time_window fuel' pruned (now + wait_time)
      else .ok (pruned ++ [now], now)
  else .ok (pruned ++ [now], now)

/-- One `acquire()` call on a limiter holding `requests`, entered at time
`now`. The recursion depth of `acquire` is bounded by the number of stored
timestamps (each round drops at least the oldest retained one), so
`requests.length` rounds of fuel are enough; the safety theorem below proves
the `outOfFuel` branch is never taken when `max_requests ≥ 1`. -/
def acquire (max_requests : Nat) (time_window : ℚ) (requests : List ℚ)
    (now : ℚ) : Except AcquireErr (List ℚ × ℚ) :=
  acquireGo max_requests time_window requests.length requests now

/-! ## Token estimation and history trimming
(`lib/ai/openai_service.py`, lines 192-242) -/

/-- One entry of the `tool_calls` list attached to an assistant message: the
dict `{id, type: "function", function: {name, arguments}}` built in
`main.py` lines 202-212 from the response's tool calls. The `type` field is
the constant "function" and is not stored. -/
structure ToolCall where
  id : String
  function_name : String
  function_arguments : String
deriving DecidableEq

/-- The `ChatMessage` dataclass (`openai_service.py` lines 23-30). -/
structure ChatMessage where
  role : String
  content : String
  name : Option String
  tool_call_id : Option String
  tool_calls : Option (List ToolCall)
deriving DecidableEq

/-- Message with only a role and content, the common construction
`ChatMessage(role=..., content=...)`. -/
def plainMessage (role content : String) : ChatMessage :=
  { role := role, content := content, name := none, tool_call_id := none,
    tool_calls := none }

/-- Embedding of `OpenAIService.estimate_tokens` (`openai_service.py` lines
192-206): `max(1, len(text) // 4)`, Python floor division. -/
def estimate_tokens (text : String) : Nat := max 1 (text.length / 4)

/-- Estimated token cost of a list of messages, as an integer (Python ints
are unbounded and the remaining budget may go negative). -/
def tokSumInt (messages : List ChatMessage) : Int :=
  (messages.map fun m => (estimate_tokens m.content : Int)).sum

/-- The selection loop of `trim_conversation_history` (lines 231-241): walk
the reversed non-system messages, keep each by inserting it at the front of
the accumulator, and break at the first message whose estimated cost would
push the running total `current_tokens` past `remaining_tokens`. -/
def trimSelect (remaining_tokens : Int) : List ChatMessage → Int → List ChatMessage
  | [], _ => []
  | message :: rest, current_tokens =>
    let msg_tokens : Int := estimate_tokens message.content
    if remaining_tokens < current_tokens + msg_tokens then []
    else trimSelect remaining_tokens rest (current_tokens + msg_tokens) ++ [message]

/-- Embedding of `OpenAIService.trim_conversation_history(messages,
max_tokens)` (`openai_service.py` lines 208-242): keep every system message,
charge their estimated tokens against the budget first, then select
non-system messages newest-first within the remaining budget, returning the
system messages followed by the kept messages in chronological order. -/
def trim_conversation_history (messages : List ChatMessage) (max_tokens : Int) :
    List ChatMessage :=
  let system_messages := messages.filter fun m => m.role == "system"
  let other_messages := messages.filter fun m => m.role != "system"
  let remaining_tokens := max_tokens - tokSumInt system_messages
  system_messages ++ trimSelect remaining_tokens other_messages.reverse 0

/-! ## Tool dispatcher (`main.py`, lines 86-124) -/

/-- Structured data passed to and returned by tool handlers (Python dicts,
lists, strings, numbers, booleans, None); numbers are modelled as
rationals. -/
inductive Json where
  | str : String → Json
  | num : ℚ → Json
  | bool : Bool → Json
  | null : Json
  | arr : List Json → Json
  | obj : List (String × Json) → Json

/-- Outcome of invoking one financial tool handler: a returned value or the
message of the exception it raises. The arithmetic inside the handlers is
out of scope; the dispatcher is verified for every handler behaviour,
including argument-mismatch `TypeError`s from the `**tool_input` splat. -/
inductive ToolOutcome where
  | ok : Json → ToolOutcome
  | exc : String → ToolOutcome

/-- The six handlers reachable from the dispatch chain of
`DexterAgent._execute_tool` (`main.py` lines 101-112). -/
structure ToolHandlers where
  calculate_roi : Json → ToolOutcome
  forecast_sales : Json → ToolOutcome
  calculate_pnl : Json → ToolOutcome
  generate_balance_sheet : Json → ToolOutcome
  generate_cash_flow_statement : Json → ToolOutcome
  analyze_break_even : Json → ToolOutcome

/-- The error payload built by the `except` branch of `_execute_tool`
(`main.py` lines 119-124): a dict carrying the exception's text and the
failing tool's name. -/
def toolErrorPayload (e tool_name : String) : Json :=
  .obj [("error", .str e), ("tool_name", .str tool_name)]

/-- Embedding of `DexterAgent._execute_tool(tool_name, tool_input)`
(`main.py` lines 86-124): the if/elif chain over the six registered names
runs inside one try block; an unknown name raises
`ValueError(f"Unknown tool: {tool_name}")` there; every exception is caught
and converted into the error payload; a successful return value is passed
through verbatim. -/
def execute_tool (hs : ToolHandlers) (tool_name : String) (tool_input : Json) :
    Json :=
  let attempt : ToolOutcome :=
    if tool_name == "calculate_roi" then hs.calculate_roi tool_input
    else if tool_name == "forecast_sales" then hs.forecast_sales tool_input
    else if tool_name == "calculate_pnl" then hs.calculate_pnl tool_input
    else if tool_name == "generate_balance_sheet" then
      hs.generate_balance_sheet tool_input
    else if tool_name == "generate_cash_flow_statement" then
      hs.generate_cash_flow_statement tool_input
    else if tool_name == "analyze_break_even" then hs.analyze_break_even tool_input
    else .exc ("Unknown tool: " ++ tool_name)
  match attempt with
  | .ok result => result
  | .exc e => toolErrorPayload e tool_name

/-- The registry view of the same chain: the static name-to-handler mapping
(the spec's Tool Registry) that `_execute_tool` realizes. -/
def registryLookup (hs : ToolHandlers) (tool_name : String) :
    Option (Json → ToolOutcome) :=
  if tool_name == "calculate_roi" then some hs.calculate_roi
  else if tool_name == "forecast_sales" then some hs.forecast_sales
  else if tool_name == "calculate_pnl" then some hs.calculate_pnl
  else if tool_name == "generate_balance_sheet" then some hs.generate_balance_sheet
  else if tool_name == "generate_cash_flow_statement" then
    some hs.generate_cash_flow_statement
  else if tool_name == "analyze_break_even" then some hs.analyze_break_even
  else none

/-! ## Conversation driver (`main.py`, `DexterAgent.chat`, lines 142-277) -/

/-- The `OpenAIResponse` dataclass (`openai_service.py` lines 33-40) as the
chat loop consumes it; `tool_calls` is `None` or a list, and Python
truthiness makes `None` and `[]` equivalent in the loop's branch test. -/
structure OpenAIResponse where
  content : String
  tokens_used : Nat
  model : String
  finish_reason : String
  tool_calls : Option (List ToolCall)
deriving DecidableEq

/-- Outcome of one `_call_openai` invocation as seen by the try/except of the
chat loop (`main.py` lines 182-273): a response, an `OpenAIError` raised
after retry exhaustion or fail-fast classification, or any other
exception's text. -/
inductive CallResult where
  | ok : OpenAIResponse → CallResult
  | openaiErr : OpenAIError → CallResult
  | otherErr : String → CallResult
deriving DecidableEq

/-- One value the `chat` generator yields: a text chunk, or the raw value
yielded for a tool result's `formatted_output` (`main.py` line 242). -/
inductive Chunk where
  | text : String → Chunk
  | jsonVal : Json → Chunk

/-- The tool banner yielded before each dispatch (`main.py` line 235). -/
def toolBanner (tool_name : String) : String :=
  "\n\n[Verwende Tool: " ++ tool_name ++ "]\n\n"

/-- The user-visible error notice for a caught `OpenAIError`
(`main.py` line 267). -/
def openaiErrorChunk (message : String) : String :=
  "\n\n❌ Ein Fehler ist aufgetreten: " ++ message ++ "\n\n"

/-- The user-visible error notice for any other exception
(`main.py` line 272). -/
def unexpectedErrorChunk (message : String) : String :=
  "\n\n❌ Ein unerwarteter Fehler ist aufgetreten: " ++ message ++ "\n\n"

/-- The user-visible iteration-exhausted notice (`main.py` line 277). -/
def maxIterationsNotice : String :=
  "\n\n⚠️ Maximale Anzahl an Iterationen erreicht.\n\n"

/-- Python `"formatted_output" in tool_result` and the subsequent indexing,
for dict results (each financial tool returns a dict; a non-dict value has
no such key). -/
def jsonLookup (j : Json) (key : String) : Option Json :=
  match j with
  | .obj fields => fields.lookup key
  | _ => none

/-- The chat loop's environment: `svc n` is the outcome of the `n`-th
`_call_openai` invocation of this turn (0-indexed); `parse` models
`json.loads` on tool-call argument strings (`none` = `JSONDecodeError`,
which the loop degrades to the empty dict, `main.py` lines 228-232);
`dumps` models `json.dumps` on tool results; `handlers` are the six
financial tools; `system_prompt` is `DEXTER_SYSTEM_PROMPT`. -/
structure ChatEnv where
  svc : Nat → CallResult
  parse : String → Option Json
  dumps : Json → String
  handlers : ToolHandlers
  system_prompt : String

/-- The chunks yielded for a tool result's `formatted_output` when the key
is present (`main.py` lines 241-242): the raw value, else nothing. -/
def formattedChunks (tool_result : Json) : List Chunk :=
  match jsonLookup tool_result "formatted_output" with
  | some v => [Chunk.jsonVal v]
  | none => []

/-- Processing of one batch of requested tool calls (`main.py` lines
223-253): for each call in order, yield the tool banner, decode the
arguments (empty dict on decode failure), dispatch, yield the result's
`formatted_output` when present, and append a `tool` message carrying the
serialized result, the invocation id and the tool name. Returns the yielded
chunks and the extended history. -/
def processToolCalls (env : ChatEnv) :
    List ToolCall → List ChatMessage → List Chunk × List ChatMessage
  | [], history => ([], history)
  | tool_call :: rest, history =>
    let tool_name := tool_call.function_name
    let tool_input := (env.parse tool_call.function_arguments).getD (Json.obj [])
    let tool_result := execute_tool env.handlers tool_name tool_input
    let formatted : List Chunk := formattedChunks tool_result
    let toolMessage : ChatMessage :=
      { role := "tool", content := env.dumps tool_result, name := some tool_name,
        tool_call_id := some tool_call.id, tool_calls := none }
    let pr := processToolCalls env rest (history ++ [toolMessage])
    (Chunk.text (toolBanner tool_name) :: formatted ++ pr.1, pr.2)

/-- The assistant message carrying the batch of requested tool calls that
the loop appends before dispatching them (`main.py` lines 200-220): empty
content, the rebuilt tool_calls dicts attached. -/
def assistantToolCallMessage (tool_calls : List ToolCall) : ChatMessage :=
  { role := "assistant", content := "", name := none, tool_call_id := none,
    tool_calls := some tool_calls }

/-- What one turn of `DexterAgent.chat` produces: the yielded chunks in
order, the conversation history afterwards, the final value of the Python
`iteration` counter, and the number of `_call_openai` invocations made. -/
structure ChatResult where
  chunks : List Chunk
  history : List ChatMessage
  iteration : Nat
  calls : Nat

/-- The `while iteration < max_iterations` loop of `DexterAgent.chat`
(`main.py` lines 176-273), with the loop condition in fuel form:
`fuel = max_iterations - iteration` iterations remain, `iteration` is the
Python counter's value on entry (incremented at the top of each pass).
Each pass calls the service once; `stop` appends and yields non-empty
content and breaks; `tool_calls` with a truthy list appends the assistant
tool-call message, processes the batch and continues; any other finish
reason yields non-empty content and breaks; a caught error yields its
notice and breaks. -/
def chatLoop (env : ChatEnv) :
    Nat → Nat → List ChatMessage → ChatResult
  | 0, iteration, history =>
    { chunks := [], history := history, iteration := iteration, calls := 0 }
  | fuel + 1, iteration, history =>
    let it := iteration + 1
    match env.svc iteration with
    | .ok response =>
      if response.finish_reason == "stop" then
        if response.content != "" then
          { chunks := [.text response.content],
            history := history ++ [plainMessage "assistant" response.content],
            iteration := it, calls := 1 }
        else { chunks := [], history := history, iteration := it, calls := 1 }
      else if response.finish_reason == "tool_calls"
          && response.tool_calls.getD [] != [] then
        let tool_calls := response.tool_calls.getD []
        let pr := processToolCalls env tool_calls
          (history ++ [assistantToolCallMessage tool_calls])
        let rest := chatLoop env fuel it pr.2
        { chunks := pr.1 ++ rest.chunks, history := rest.history,
          iteration := rest.iteration, calls := rest.calls + 1 }
      else
        { chunks := if response.content != "" then [.text response.content] else [],
          history := history, iteration := it, calls := 1 }
    | .openaiErr e =>
      { chunks := [.text (openaiErrorChunk e.message)], history := history,
        iteration := it, calls := 1 }
    | .otherErr e =>
      { chunks := [.text (unexpectedErrorChunk e)], history := history,
        iteration := it, calls := 1 }

/-- Embedding of one `DexterAgent.chat(user_message)` turn (`main.py` lines
142-277): increment `turn_count`, seed the system prompt into an empty
history, append the user message, run the loop with the hard-coded
`max_iterations = 10`, and yield the iteration-exhausted notice afterwards
whenever `iteration >= max_iterations` holds at loop exit. Returns the
turn's result and the new `turn_count`. -/
def chat (env : ChatEnv) (history0 : List ChatMessage) (turn_count : Nat)
    (user_message : String) : ChatResult × Nat :=
  let history1 :=
    if history0 = [] then [plainMessage "system" env.system_prompt] else history0
  let history2 := history1 ++ [plainMessage "user" user_message]
  let r := chatLoop env 10 0 history2
  let chunks :=
    if 10 ≤ r.iteration then r.chunks ++ [.text maxIterationsNotice] else r.chunks
  ({ chunks := chunks, history := r.history, iteration := r.iteration,
     calls := r.calls }, turn_count + 1)

/-- The loop proceeds to another iteration exactly when the response's
finish reason is `tool_calls` with a truthy tool-call list
(`main.py` line 196); every other outcome breaks. -/
def continuesIteration (c : CallResult) : Bool :=
  match c with
  | .ok r => r.finish_reason == "tool_calls" && r.tool_calls.getD [] != []
  | _ => false

/-- Embedding of `DexterAgent._call_openai` (`main.py` lines 126-140): the
`openai_service.generate_response` operation wrapped by the
`retry_on_error(max_retries=3, base_delay=1.0)` decorator, i.e.
`with_retry` with exponential backoff. `gen n` is the outcome of the `n`-th
underlying completion-service call. The module-global rate limiter's
timestamp list is threaded alongside: no statement on this code path reads
or writes it, so it is returned unchanged. -/
def call_openai {α : Type} (gen : Nat → Except String α)
    (limiter_requests : List ℚ) : RetryOutcome α × List ℚ :=
  (with_retry gen 3 1 true, limiter_requests)

/-! ## Concrete instances used by the closed theorems below -/

/-- A request for one invocation of an unregistered no-op tool, with
arguments that fail to decode (degrading to the empty dict). -/
def noopToolCall : ToolCall :=
  { id := "call_1", function_name := "noop", function_arguments := "" }

/-- A completion outcome requesting one invocation of the no-op tool. -/
def toolCallResponse : OpenAIResponse :=
  { content := "", tokens_used := 0, model := "gpt-4",
    finish_reason := "tool_calls", tool_calls := some [noopToolCall] }

/-- A terminal stop outcome carrying the given text. -/
def stopResponse (content : String) : OpenAIResponse :=
  { content := content, tokens_used := 0, model := "gpt-4",
    finish_reason := "stop", tool_calls := none }

/-- Handlers that all raise, for the concrete runs (the concrete loops only
dispatch the unregistered "noop" tool, so none of them is ever reached). -/
def excHandlers : ToolHandlers :=
  { calculate_roi := fun _ => .exc "boom", forecast_sales := fun _ => .exc "boom",
    calculate_pnl := fun _ => .exc "boom",
    generate_balance_sheet := fun _ => .exc "boom",
    generate_cash_flow_statement := fun _ => .exc "boom",
    analyze_break_even := fun _ => .exc "boom" }

/-- Environment whose completion service requests a tool call on each of the
first nine iterations of a turn and returns a terminal stop with text on
the tenth. -/
def stopOnTenthEnv : ChatEnv :=
  { svc := fun n =>
      if n < 9 then .ok toolCallResponse else .ok (stopResponse "Hallo"),
    parse := fun _ => none, dumps := fun _ => "serialized",
    handlers := excHandlers, system_prompt := "prompt" }

/-- Environment whose completion service always requests tool calls. -/
def alwaysToolCallsEnv : ChatEnv :=
  { svc := fun _ => .ok toolCallResponse, parse := fun _ => none,
    dumps := fun _ => "serialized", handlers := excHandlers,
    system_prompt := "prompt" }

/-- String of `n` copies of `c`, to pin estimated token counts. -/
def repChar (c : Char) (n : Nat) : String := String.mk (List.replicate n c)

/-- The system message of the trimming example: 200 characters, estimated at
50 tokens. -/
def exampleSystemMessage : ChatMessage := plainMessage "system" (repChar 's' 200)

/-- The most recent non-system message of the trimming example: 120
characters, estimated at 30 tokens. -/
def exampleRecentMessage : ChatMessage := plainMessage "user" (repChar 'e' 120)

/-- The trimming example transcript: one system message estimated at 50
tokens followed by five alternating user/assistant messages estimated at 30
tokens each. -/
def exampleMessages : List ChatMessage :=
  [exampleSystemMessage,
   plainMessage "user" (repChar 'a' 120),
   plainMessage "assistant" (repChar 'b' 120),
   plainMessage "user" (repChar 'c' 120),
   plainMessage "assistant" (repChar 'd' 120),
   exampleRecentMessage]

/-- A completion-service operation that succeeds on the first attempt. -/
def genOk : Nat → Except String String := fun _ => .ok "antwort"

/-! ## Theorems -/

/-- C7 counterexample: the token estimator uses floor division, not the
ceiling: a 5-character text is estimated at max(1, 5 // 4) = 1 token,
whereas max(1, ceil(5/4)) = 2. -/
theorem estimate_tokens_not_ceiling :
    estimate_tokens "aaaaa" = 1 ∧ max 1 (("aaaaa".length + 3) / 4) = 2 := by
  decide

/-- C7 (amended): for every text, estimate_tokens returns
max(1, floor(character_length / 4)): the estimate is max 1 q for the unique
q with 4q ≤ length < 4q + 4. -/
theorem estimate_tokens_floor_spec (text : String) :
    ∃ q, estimate_tokens text = max 1 q ∧ 4 * q ≤ text.length ∧
      text.length < 4 * q + 4 := by
  refine ⟨text.length / 4, rfl, ?_, ?_⟩ <;>
    · have h1 := Nat.div_add_mod text.length 4
      have h2 : text.length % 4 < 4 := Nat.mod_lt _ (by norm_num)
      omega

/-- C3: classify_error matches the markers as case-insensitive substring
tests in the fixed source order (rate-limit, authentication,
invalid-request, service-unavailable, context-too-long, unknown), first
match wins, and returns the corresponding error with the stated
retryability and default waits; a string matching several kinds resolves to
the first-listed one. -/
theorem classify_error_precedence (error : String) :
    (rateLimitMarker (pyLower error) = true →
      classify_error error = RateLimitError error 60 ∧
      (classify_error error).retryable = true ∧
      (classify_error error).retry_after = some 60) ∧
    (rateLimitMarker (pyLower error) = false →
      authMarker (pyLower error) = true →
      classify_error error = AuthenticationError error ∧
      (classify_error error).retryable = false) ∧
    (rateLimitMarker (pyLower error) = false →
      authMarker (pyLower error) = false →
      invalidMarker (pyLower error) = true →
      classify_error error = InvalidRequestError error ∧
      (classify_error error).retryable = false) ∧
    (rateLimitMarker (pyLower error) = false →
      authMarker (pyLower error) = false →
      invalidMarker (pyLower error) = false →
      unavailableMarker (pyLower error) = true →
      classify_error error = ServiceUnavailableError error ∧
      (classify_error error).retryable = true ∧
      (classify_error error).retry_after = some 30) ∧
    (rateLimitMarker (pyLower error) = false →
      authMarker (pyLower error) = false →
      invalidMarker (pyLower error) = false →
      unavailableMarker (pyLower error) = false →
      contextMarker (pyLower error) = true →
      classify_error error = ContextLengthExceededError error ∧
      (classify_error error).retryable = false) ∧
    (rateLimitMarker (pyLower error) = false →
      authMarker (pyLower error) = false →
      invalidMarker (pyLower error) = false →
      unavailableMarker (pyLower error) = false →
      contextMarker (pyLower error) = false →
      classify_error error = UnknownOpenAIError error ∧
      (classify_error error).retryable = true) := by
  refine ⟨?_, ?_, ?_, ?_, ?_, ?_⟩ <;> intros <;>
    simp_all [classify_error, RateLimitError, AuthenticationError,
      InvalidRequestError, ServiceUnavailableError, ContextLengthExceededError,
      UnknownOpenAIError]

/-- C8 counterexample: an error string containing "invalid api key" but also
the rate-limit marker "429" is classified as a rate-limit error (retryable),
not as an authentication failure: the claim's unconditional quantification
over all strings containing the authentication markers fails. -/
theorem classify_error_auth_counterexample :
    strContains (pyLower "429 invalid api key") "invalid api key" = true ∧
    classify_error "429 invalid api key"
      = RateLimitError "429 invalid api key" 60 ∧
    (classify_error "429 invalid api key").retryable = true := by
  decide

/-- C8 (amended): every error string containing "401" or "invalid api key"
(case-insensitively) and containing no rate-limit marker ("rate limit" or
"429") classifies as AuthenticationFailed with retryable = false. -/
theorem classify_error_auth_amended (error : String)
    (hrl : rateLimitMarker (pyLower error) = false)
    (h : strContains (pyLower error) "401" = true ∨
      strContains (pyLower error) "invalid api key" = true) :
    classify_error error = AuthenticationError error ∧
    (classify_error error).retryable = false := by
  have hauth : authMarker (pyLower error) = true := by
    rcases h with h | h
    · simp [authMarker, h]
    · have hk : strContains (pyLower error) "api key" = true := by
        have hsub : ("api key".data) <:+: ("invalid api key".data) := by decide
        have hinf : ("invalid api key".data) <:+: (pyLower error).data := by
          simpa [strContains] using h
        simpa [strContains] using hsub.trans hinf
      simp [authMarker, hk]
  simp [classify_error, hrl, hauth, AuthenticationError]

/-- C8 witness: a concrete authentication failure, classified through the
amended statement. -/
theorem classify_error_auth_amended_witness :
    classify_error "Invalid API Key" = AuthenticationError "Invalid API Key" ∧
    (classify_error "Invalid API Key").retryable = false :=
  classify_error_auth_amended "Invalid API Key" (by decide) (Or.inr (by decide))

/-- C4: an operation whose every call raises an error classified as not
retryable is invoked exactly once by with_retry, which raises the
classified error of that single call immediately — regardless of
max_retries and of the backoff configuration — and sleeps no delay. -/
theorem with_retry_fail_fast {α : Type} (op : Nat → Except String α)
    (max_retries : Nat) (base_delay : ℚ) (exponential_backoff : Bool)
    (hfail : ∀ i, ∃ e, op i = Except.error e ∧
      (classify_error e).retryable = false) :
    ∃ e, op 0 = Except.error e ∧
      with_retry op max_retries base_delay exponential_backoff
        = { result := .error (classify_error e), calls := 1, delays := [] } := by
  obtain ⟨e, he, hr⟩ := hfail 0
  refine ⟨e, he, ?_⟩
  simp [with_retry, with_retry_go, he, hr]

/-- C4 witness: with_retry on an operation that always raises a "401" error,
with a retry budget of 5, makes exactly one call. -/
theorem with_retry_fail_fast_witness :
    ∃ e, (fun _ => (Except.error "401" : Except String Nat)) 0
        = Except.error e ∧
      with_retry (fun _ => (Except.error "401" : Except String Nat)) 5 1 true
        = { result := .error (classify_error e), calls := 1, delays := [] } :=
  with_retry_fail_fast (fun _ => (Except.error "401" : Except String Nat))
    5 1 true (fun _ => ⟨"401", rfl, by decide⟩)

/-- Helper for C5: inside the retry loop, k retryable failures starting at
the current attempt followed by a success on attempt attempt + k produce
the success value with k + 1 calls, as long as the remaining iteration
budget (fuel) and the retry budget allow them. -/
theorem with_retry_go_succeeds {α : Type} (op : Nat → Except String α)
    (max_retries : Nat) (base_delay : ℚ) (eb : Bool) (v : α) :
    ∀ (k attempt fuel : Nat), k < fuel → attempt + k ≤ max_retries →
      (∀ i, i < k → ∃ e, op (attempt + i) = Except.error e ∧
        (classify_error e).retryable = true) →
      op (attempt + k) = Except.ok v →
      (with_retry_go op max_retries base_delay eb attempt fuel).result
          = .ok v ∧
        (with_retry_go op max_retries base_delay eb attempt fuel).calls
          = k + 1 := by
  intro k
  induction k with
  | zero =>
    intro attempt fuel hfuel _ _ hok
    match fuel, hfuel with
    | fuel + 1, _ =>
      simp only [Nat.add_zero] at hok
      simp [with_retry_go, hok]
  | succ k ih =>
    intro attempt fuel hfuel hbudget hfail hok
    match fuel, hfuel with
    | fuel + 1, _ =>
      obtain ⟨e, he, hr⟩ := by simpa using hfail 0 (Nat.succ_pos k)
      have hlt : ¬ max_retries ≤ attempt := by omega
      have hrec := ih (attempt + 1) fuel (by omega) (by omega)
        (fun i hi => by
          have := hfail (i + 1) (by omega)
          simpa [Nat.add_assoc, Nat.add_comm 1 i] using this)
        (by simpa [Nat.add_assoc, Nat.add_comm 1 k] using hok)
      simp [with_retry_go, he, hr, hlt, hrec.1, hrec.2]

/-- C5: an operation that raises retryable-classified errors on its first k
calls and then succeeds, with k < max_retries, makes with_retry return the
success value, with the operation invoked exactly k + 1 times. -/
theorem with_retry_eventual_success {α : Type} (op : Nat → Except String α)
    (max_retries k : Nat) (base_delay : ℚ) (eb : Bool) (v : α)
    (hk : k < max_retries)
    (hfail : ∀ i, i < k → ∃ e, op i = Except.error e ∧
      (classify_error e).retryable = true)
    (hok : op k = Except.ok v) :
    (with_retry op max_retries base_delay eb).result = .ok v ∧
      (with_retry op max_retries base_delay eb).calls = k + 1 :=
  with_retry_go_succeeds op max_retries base_delay eb v k 0 (max_retries + 1)
    (by omega) (by omega) (fun i hi => by simpa using hfail i hi)
    (by simpa using hok)

/-- C5 witness: an operation that fails twice with "429" and then returns 7,
under a retry budget of 3, succeeds with exactly three calls. -/
theorem with_retry_eventual_success_witness :
    (with_retry
        (fun i => if i < 2 then Except.error "429" else Except.ok (7 : Nat))
        3 1 true).result = .ok 7 ∧
      (with_retry
        (fun i => if i < 2 then Except.error "429" else Except.ok (7 : Nat))
        3 1 true).calls = 3 :=
  with_retry_eventual_success
    (fun i => if i < 2 then Except.error "429" else Except.ok (7 : Nat))
    3 2 1 true 7 (by decide)
    (fun i hi => ⟨"429", by simp [hi], by decide⟩) (by decide)

/-- Helper for C2: the retry loop never invokes the operation more often
than its remaining iteration budget. -/
theorem with_retry_go_calls_le {α : Type} (op : Nat → Except String α)
    (max_retries : Nat) (base_delay : ℚ) (eb : Bool) :
    ∀ (fuel attempt : Nat),
      (with_retry_go op max_retries base_delay eb attempt fuel).calls ≤ fuel := by
  intro fuel
  induction fuel with
  | zero => intro attempt; simp [with_retry_go]
  | succ n ih =>
    intro attempt
    have h := ih (attempt + 1)
    simp only [with_retry_go]
    rcases hop : op attempt with v | e
    · dsimp only
      split
      · dsimp only
        omega
      · split
        · dsimp only
          omega
        · dsimp only
          omega
    · dsimp only
      omega

/-- Helper for C2: the retry loop invokes the operation at least once when
its iteration budget is positive. -/
theorem with_retry_go_calls_pos {α : Type} (op : Nat → Except String α)
    (max_retries : Nat) (base_delay : ℚ) (eb : Bool) (fuel attempt : Nat)
    (hfuel : 0 < fuel) :
    1 ≤ (with_retry_go op max_retries base_delay eb attempt fuel).calls := by
  match fuel, hfuel with
  | fuel + 1, _ =>
    simp only [with_retry_go]
    rcases hop : op attempt with v | e
    · dsimp only
      split
      · dsimp only
        omega
      · split
        · dsimp only
          omega
        · dsimp only
          omega
    · dsimp only
      omega

/-- C2 (amended): _call_openai wraps every completion-service call in the
bounded retry executor (max_retries = 3, base_delay = 1.0, exponential
backoff), making between 1 and 4 underlying service invocations per driver
iteration, and the shared rate limiter's timestamp window is left
untouched: no completion call consults the rate limiter. -/
theorem call_openai_retry_no_limiter {α : Type} (gen : Nat → Except String α)
    (limiter_requests : List ℚ) :
    (call_openai gen limiter_requests).2 = limiter_requests ∧
      1 ≤ (call_openai gen limiter_requests).1.calls ∧
      (call_openai gen limiter_requests).1.calls ≤ 4 :=
  ⟨rfl, with_retry_go_calls_pos gen 3 1 true 4 0 (by omega),
    with_retry_go_calls_le gen 3 1 true 4 0⟩

/-- C2 counterexample: a completed completion call that invoked the service
once left the initially empty shared rate limiter's timestamp list empty,
although an acquire on an empty limiter always records a timestamp: the
completion path never acquired admission from the rate limiter. -/
theorem call_openai_skips_rate_limiter :
    (call_openai genOk []).1.calls = 1 ∧ (call_openai genOk []).2 = [] ∧
      acquire 60 60 [] 0 = .ok ([0], 0) := by
  refine ⟨rfl, rfl, rfl⟩

/-- Helper for C9: the dispatch chain of _execute_tool agrees with the
registry view: look the name up, run the handler, convert exceptions. -/
theorem execute_tool_eq_registry (hs : ToolHandlers) (tool_name : String)
    (tool_input : Json) :
    execute_tool hs tool_name tool_input =
      match registryLookup hs tool_name with
      | none => toolErrorPayload ("Unknown tool: " ++ tool_name) tool_name
      | some h =>
        match h tool_input with
        | .ok result => result
        | .exc e => toolErrorPayload e tool_name := by
  unfold execute_tool registryLookup
  split_ifs <;> rfl

/-- C9: the dispatcher never propagates an exception to the driver: an
unregistered tool name produces the unknown-tool error payload (whose
non-empty error message mentions the tool and which carries no success
payload), a raising handler produces an error payload carrying the
exception's message and the tool's name, and a successful handler's return
value is passed through verbatim. -/
theorem execute_tool_contract (hs : ToolHandlers) (tool_name : String)
    (tool_input : Json) :
    (registryLookup hs tool_name = none →
      execute_tool hs tool_name tool_input
          = toolErrorPayload ("Unknown tool: " ++ tool_name) tool_name ∧
        "Unknown tool: " ++ tool_name ≠ "" ∧
        strContains ("Unknown tool: " ++ tool_name) tool_name = true) ∧
    (∀ h m, registryLookup hs tool_name = some h → h tool_input = .exc m →
      execute_tool hs tool_name tool_input = toolErrorPayload m tool_name) ∧
    (∀ h v, registryLookup hs tool_name = some h → h tool_input = .ok v →
      execute_tool hs tool_name tool_input = v) := by
  have hb := execute_tool_eq_registry hs tool_name tool_input
  refine ⟨?_, ?_, ?_⟩
  · intro hnone
    rw [hnone] at hb
    refine ⟨hb, ?_, ?_⟩
    · intro hc
      have hdata := congrArg String.data hc
      simp [String.data_append] at hdata
    · have hsuffix : tool_name.data <:+ ("Unknown tool: " ++ tool_name).data := by
        rw [String.data_append]
        exact List.suffix_append _ _
      simpa [strContains] using hsuffix.isInfix
  · intro h m hsome hm
    rw [hsome] at hb
    dsimp only at hb
    rw [hm] at hb
    exact hb
  · intro h v hsome hv
    rw [hsome] at hb
    dsimp only at hb
    rw [hv] at hb
    exact hb

/-- Helper for C10: when the limiter admits at least one request per window,
an acquire whose fuel covers the pruned window always terminates by
appending the entry time: each waiting round strictly shrinks the retained
window, because re-reading the clock after the sleep prunes at least the
oldest retained timestamp. -/
theorem acquireGo_ok (max_requests : Nat) (time_window : ℚ)
    (hmax : 1 ≤ max_requests) :
    ∀ (fuel : Nat) (requests : List ℚ) (now : ℚ),
      (requests.filter fun ts => now - time_window < ts).length ≤ fuel →
      ∃ l t, acquireGo max_requests time_window fuel requests now = .ok (l, t) ∧
        l ≠ [] ∧ l.getLast? = some t := by
  intro fuel
  induction fuel with
  | zero =>
    intro requests now hlen
    have hnil : (requests.filter fun ts => now - time_window < ts) = [] :=
      List.length_eq_zero.mp (Nat.le_zero.mp hlen)
    refine ⟨[now], now, ?_, by simp, by simp⟩
    unfold acquireGo
    rw [hnil]
    simp [Nat.not_le.mpr (by omega : 0 < max_requests)]
  | succ n ih =>
    intro requests now hlen
    by_cases hle :
        max_requests ≤ (requests.filter fun ts => now - time_window < ts).length
    · rcases hp : requests.filter fun ts => now - time_window < ts with _ | ⟨oldest, rest⟩
      · rw [hp] at hle; simp at hle; omega
      · have holdmem : oldest ∈ requests.filter fun ts => now - time_window < ts := by
          rw [hp]; exact List.mem_cons_self _ _
        have hold : now - time_window < oldest := by
          have := List.of_mem_filter holdmem
          exact_mod_cast of_decide_eq_true this
        have hwait : 0 < time_window - (now - oldest) := by linarith
        have hAB : now + (time_window - (now - oldest)) - time_window = oldest := by
          ring
        have hnext :
            ((oldest :: rest).filter fun ts =>
                now + (time_window - (now - oldest)) - time_window < ts).length ≤ n := by
          have hfe : ((oldest :: rest).filter fun ts =>
              now + (time_window - (now - oldest)) - time_window < ts)
              = (oldest :: rest).filter fun ts => oldest < ts := by
            apply List.filter_congr
            intro a _
            rw [hAB]
          rw [hfe]
          have : ((oldest :: rest).filter fun ts => oldest < ts)
              = rest.filter fun ts => oldest < ts := by
            simp [List.filter_cons]
          rw [this]
          have hr1 : (rest.filter fun ts => oldest < ts).length ≤ rest.length :=
            List.length_filter_le _ _
          have hr2 : (oldest :: rest).length ≤ n + 1 := by
            rw [← hp]; exact hlen
          simp at hr2
          omega
        have hrec := ih (oldest :: rest) (now + (time_window - (now - oldest))) hnext
        obtain ⟨l, t, hgo, hlnil, hlast⟩ := hrec
        refine ⟨l, t, ?_, hlnil, hlast⟩
        unfold acquireGo
        rw [hp]
        simp only [← hp, hle, if_pos]
        rw [hp]
        simp [hwait, hgo]
    · refine ⟨(requests.filter fun ts => now - time_window < ts) ++ [now], now,
        ?_, by simp, by simp⟩
      unfold acquireGo
      simp [hle]

/-- C10: acquire is total exactly under the precondition max_requests ≥ 1:
with max_requests ≥ 1 every acquire terminates by recording the entry time
at the end of the retained window (in particular the oldest-timestamp read
never sees an empty list and the fuel bound is never exhausted), while a
limiter constructed with max_requests = 0 reaches the over-limit branch on
its very first acquire with an empty window and fails with an index error
on the requests[0] access instead of blocking or admitting. -/
theorem acquire_safety :
    (∀ (max_requests : Nat) (time_window : ℚ) (requests : List ℚ) (now : ℚ),
      1 ≤ max_requests →
      ∃ l t, acquire max_requests time_window requests now = .ok (l, t) ∧
        l ≠ [] ∧ l.getLast? = some t) ∧
    (∀ (time_window now : ℚ),
      acquire 0 time_window [] now = .error .indexError) := by
  constructor
  · intro max_requests time_window requests now hmax
    exact acquireGo_ok max_requests time_window hmax requests.length requests now
      (List.length_filter_le _ _)
  · intro time_window now
    rfl

/-- Helper for C6: the selection loop keeps a prefix of the reversed walk
(so a most-recent-first block), never exceeds the remaining budget beyond
the running total it started with, and stops exactly at the first message
that would overflow. -/
theorem trimSelect_spec (remaining_tokens : Int) :
    ∀ (rl : List ChatMessage) (current_tokens : Int),
      ∃ K, trimSelect remaining_tokens rl current_tokens = K ∧
        K.reverse <+: rl ∧
        current_tokens + tokSumInt K ≤ max remaining_tokens current_tokens ∧
        (K.reverse = rl ∨ ∃ m rest, rl = K.reverse ++ m :: rest ∧
          remaining_tokens <
            current_tokens + tokSumInt K + (estimate_tokens m.content : Int)) := by
  intro rl
  induction rl with
  | nil =>
    intro cur
    exact ⟨[], rfl, by simp, by simp [tokSumInt], Or.inl rfl⟩
  | cons message rest ih =>
    intro cur
    by_cases hover :
        remaining_tokens < cur + (estimate_tokens message.content : Int)
    · refine ⟨[], ?_, by simp, by simp [tokSumInt], ?_⟩
      · simp [trimSelect, hover]
      · exact Or.inr ⟨message, rest, by simp, by simpa [tokSumInt] using hover⟩
    · obtain ⟨K, hK, hpre, hsum, hmax⟩ :=
        ih (cur + (estimate_tokens message.content : Int))
      refine ⟨K ++ [message], ?_, ?_, ?_, ?_⟩
      · simp [trimSelect, hover, hK]
      · simp only [List.reverse_append, List.reverse_singleton,
          List.singleton_append]
        exact List.cons_prefix_cons.mpr ⟨rfl, hpre⟩
      · have hsum2 : tokSumInt (K ++ [message])
            = tokSumInt K + (estimate_tokens message.content : Int) := by
          simp [tokSumInt]
        rw [hsum2]
        have hle : cur + (estimate_tokens message.content : Int)
            ≤ remaining_tokens := by omega
        have := max_eq_left hle
        calc cur + (tokSumInt K + (estimate_tokens message.content : Int))
            = cur + (estimate_tokens message.content : Int) + tokSumInt K := by ring
          _ ≤ max remaining_tokens (cur + (estimate_tokens message.content : Int)) :=
              hsum
          _ = remaining_tokens := max_eq_left hle
          _ ≤ max remaining_tokens cur := le_max_left _ _
      · rcases hmax with heq | ⟨m, r, hr, hovr⟩
        · exact Or.inl (by simp [heq])
        · refine Or.inr ⟨m, r, ?_, ?_⟩
          · simp [hr]
          · have hsum2 : tokSumInt (K ++ [message])
                = tokSumInt K + (estimate_tokens message.content : Int) := by
              simp [tokSumInt]
            rw [hsum2]
            omega

set_option maxRecDepth 4000 in
/-- C6: trim keeps every system message (in their original relative order,
at the front) and charges their estimated tokens first; the kept non-system
messages form a chronological suffix of the non-system transcript that fits
the remaining budget and is maximal: either everything was kept, or the
next-older message would have overflowed the remaining budget. On the
spec's example — one system message of 50 estimated tokens, budget 100, and
five non-system messages of 30 estimated tokens each — the result is the
system message plus exactly the single most recent message. -/
theorem trim_conversation_history_spec :
    (∀ (messages : List ChatMessage) (max_tokens : Int),
      ∃ K, trim_conversation_history messages max_tokens
          = messages.filter (fun m => m.role == "system") ++ K ∧
        K <:+ messages.filter (fun m => m.role != "system") ∧
        tokSumInt K ≤
          max (max_tokens
            - tokSumInt (messages.filter (fun m => m.role == "system"))) 0 ∧
        (K = messages.filter (fun m => m.role != "system") ∨
          ∃ m' pre,
            messages.filter (fun m => m.role != "system") = pre ++ m' :: K ∧
            max_tokens - tokSumInt (messages.filter (fun m => m.role == "system"))
              < tokSumInt K + (estimate_tokens m'.content : Int))) ∧
    trim_conversation_history exampleMessages 100
      = [exampleSystemMessage, exampleRecentMessage] := by
  constructor
  · intro messages max_tokens
    obtain ⟨K, hK, hpre, hsum, hmax⟩ :=
      trimSelect_spec
        (max_tokens - tokSumInt (messages.filter (fun m => m.role == "system")))
        (messages.filter (fun m => m.role != "system")).reverse 0
    refine ⟨K, ?_, ?_, ?_, ?_⟩
    · simp [trim_conversation_history, hK]
    · rw [← List.reverse_prefix]
      simpa using hpre
    · simpa using hsum
    · rcases hmax with heq | ⟨m', r, hr, hovr⟩
      · exact Or.inl (by
          have := congrArg List.reverse heq
          simpa using this)
      · refine Or.inr ⟨m', r.reverse, ?_, by simpa using hovr⟩
        have := congrArg List.reverse hr
        simpa [List.reverse_append] using this
  · decide

/-- Helper for C1: a formatted-output chunk is always a raw value chunk. -/
theorem formattedChunks_mem (tool_result : Json) (c : Chunk)
    (hc : c ∈ formattedChunks tool_result) : ∃ v, c = .jsonVal v := by
  unfold formattedChunks at hc
  cases hl : jsonLookup tool_result "formatted_output" with
  | none => rw [hl] at hc; simp at hc
  | some v =>
    rw [hl] at hc
    simp at hc
    exact ⟨v, hc⟩

/-- Helper for C1: a tool batch only yields tool banners and raw
formatted-output values. -/
theorem processToolCalls_chunks (env : ChatEnv) :
    ∀ (tcs : List ToolCall) (history : List ChatMessage) (c : Chunk),
      c ∈ (processToolCalls env tcs history).1 →
      (∃ nm, c = .text (toolBanner nm)) ∨ ∃ j, c = .jsonVal j := by
  intro tcs
  induction tcs with
  | nil => intro history c hc; simp [processToolCalls] at hc
  | cons tc rest ih =>
    intro history c hc
    simp only [processToolCalls] at hc
    rcases List.mem_cons.mp hc with rfl | hc2
    · exact Or.inl ⟨tc.function_name, rfl⟩
    · rcases List.mem_append.mp hc2 with h3 | h3
      · exact Or.inr (formattedChunks_mem _ c h3)
      · exact ih _ c h3

/-- Helper for C1: the loop never makes more completion calls than its
remaining iteration budget allows. -/
theorem chatLoop_calls_le (env : ChatEnv) :
    ∀ (fuel iteration : Nat) (history : List ChatMessage),
      (chatLoop env fuel iteration history).calls ≤ fuel := by
  intro fuel
  induction fuel with
  | zero => intro it history; simp [chatLoop]
  | succ n ih =>
    intro it history
    simp only [chatLoop]
    rcases hsvc : env.svc it with r | e | e
    · dsimp only
      split
      · split
        · dsimp only; omega
        · dsimp only; omega
      · split
        · dsimp only
          exact Nat.succ_le_succ (ih _ _)
        · dsimp only; omega
    · dsimp only; omega
    · dsimp only; omega

/-- Helper for C1: in the break cases (the current completion outcome does
not request further tool calls) the loop's final counter reaches the cap
exactly when this was the last allowed iteration. -/
theorem chatCapBreakAux (env : ChatEnv) (it n : Nat)
    (hcont : continuesIteration (env.svc it) = false) :
    it + (n + 1) ≤ it + 1 ↔
      ∀ i, it ≤ i → i + 1 < it + (n + 1) →
        continuesIteration (env.svc i) = true := by
  constructor
  · intro hle i h1 h2
    exact absurd h2 (by omega)
  · intro hall
    rcases Nat.eq_zero_or_pos n with h0 | hpos
    · omega
    · have hc := hall it (le_refl it) (by omega)
      rw [hcont] at hc
      cases hc

/-- Helper for C1: the loop's final iteration counter reaches the cap
exactly when every iteration that is not the last allowed one requested
further tool calls. -/
theorem chatLoop_reaches_cap (env : ChatEnv) :
    ∀ (fuel iteration : Nat) (history : List ChatMessage),
      iteration + fuel ≤ (chatLoop env fuel iteration history).iteration ↔
        ∀ i, iteration ≤ i → i + 1 < iteration + fuel →
          continuesIteration (env.svc i) = true := by
  intro fuel
  induction fuel with
  | zero =>
    intro it history
    constructor
    · intro _ i h1 h2
      exact absurd h2 (by omega)
    · intro _
      simp [chatLoop]
  | succ n ih =>
    intro it history
    simp only [chatLoop]
    rcases hsvc : env.svc it with r | e | e
    · dsimp only
      split
      · have hstop : (r.finish_reason == "stop") = true := by assumption
        have hfr : r.finish_reason = "stop" := by simpa using hstop
        have hcont : continuesIteration (env.svc it) = false := by
          rw [hsvc]
          simp [continuesIteration, hfr]
        split
        · dsimp only
          exact chatCapBreakAux env it n hcont
        · dsimp only
          exact chatCapBreakAux env it n hcont
      · split
        · rename_i htool
          have hcont : continuesIteration (env.svc it) = true := by
            rw [hsvc]
            simpa [continuesIteration] using htool
          dsimp only
          rw [show it + (n + 1) = (it + 1) + n by omega, ih]
          constructor
          · intro hall i h1 h2
            rcases Nat.eq_or_lt_of_le h1 with rfl | h1'
            · exact hcont
            · exact hall i (by omega) (by omega)
          · intro hall i h1 h2
            exact hall i (by omega) (by omega)
        · rename_i htool
          have hcont : continuesIteration (env.svc it) = false := by
            rw [hsvc]
            simpa [continuesIteration] using htool
          dsimp only
          exact chatCapBreakAux env it n hcont
    · dsimp only
      exact chatCapBreakAux env it n (by rw [hsvc]; rfl)
    · dsimp only
      exact chatCapBreakAux env it n (by rw [hsvc]; rfl)

/-- Helper for C1: when every completion outcome requests further tool
calls, the loop consumes its whole iteration budget, making one completion
call per iteration, and yields only tool banners and raw formatted-output
values. -/
theorem chatLoop_always_tools (env : ChatEnv)
    (hall : ∀ n, continuesIteration (env.svc n) = true) :
    ∀ (fuel iteration : Nat) (history : List ChatMessage),
      (chatLoop env fuel iteration history).calls = fuel ∧
      ∀ c ∈ (chatLoop env fuel iteration history).chunks,
        (∃ nm, c = .text (toolBanner nm)) ∨ ∃ j, c = .jsonVal j := by
  intro fuel
  induction fuel with
  | zero =>
    intro it history
    exact ⟨by simp [chatLoop], fun c hc => by simp [chatLoop] at hc⟩
  | succ n ih =>
    intro it history
    have hct := hall it
    rcases hsvc : env.svc it with r | e | e
    · rw [hsvc] at hct
      have hband : (r.finish_reason == "tool_calls"
          && r.tool_calls.getD [] != []) = true := by
        simpa [continuesIteration] using hct
      obtain ⟨hfr, hnn⟩ : (r.finish_reason == "tool_calls") = true ∧
          (r.tool_calls.getD [] != []) = true := by simpa using hband
      have hfr2 : r.finish_reason = "tool_calls" := by simpa using hfr
      have hstop : ¬ (r.finish_reason == "stop") = true := by
        rw [hfr2]; simp
      simp only [chatLoop]
      rw [hsvc]
      dsimp only
      rw [if_neg hstop, if_pos (by rw [hfr2]; simpa using hnn)]
      dsimp only
      obtain ⟨ihc, ihm⟩ := ih (it + 1)
        (processToolCalls env (r.tool_calls.getD [])
          (history ++ [assistantToolCallMessage (r.tool_calls.getD [])])).2
      refine ⟨by rw [ihc], ?_⟩
      intro c hc
      rcases List.mem_append.mp hc with h3 | h3
      · exact processToolCalls_chunks env _ _ c h3
      · exact ihm c h3
    · rw [hsvc] at hct; simp [continuesIteration] at hct
    · rw [hsvc] at hct; simp [continuesIteration] at hct

/-- C1 (amended): the tool-call loop makes at most max_iterations = 10
completion calls per user message; a completion service that always
returns finish_reason = tool_calls causes exactly 10 completion calls after
which the "maximum iterations reached" notice is the last chunk and no
error notice is yielded; and the notice is emitted iff the final iteration
counter reached the cap, which happens exactly when the first nine
iterations all requested further tool calls — including when a terminal
outcome (such as a stop) arrives on the tenth and final iteration. -/
theorem chat_iteration_cap_spec :
    (∀ (env : ChatEnv) (history : List ChatMessage) (turn_count : Nat)
        (user : String),
      (chat env history turn_count user).1.calls ≤ 10) ∧
    (∀ (env : ChatEnv) (history : List ChatMessage) (turn_count : Nat)
        (user : String),
      (∀ n, continuesIteration (env.svc n) = true) →
        (chat env history turn_count user).1.calls = 10 ∧
        (chat env history turn_count user).1.chunks.getLast?
          = some (.text maxIterationsNotice) ∧
        ∀ c ∈ (chat env history turn_count user).1.chunks,
          (∃ nm, c = .text (toolBanner nm)) ∨ (∃ j, c = .jsonVal j) ∨
            c = .text maxIterationsNotice) ∧
    (∀ (env : ChatEnv) (history : List ChatMessage) (turn_count : Nat)
        (user : String),
      10 ≤ (chat env history turn_count user).1.iteration ↔
        ∀ i, i < 9 → continuesIteration (env.svc i) = true) ∧
    (∀ (env : ChatEnv) (history : List ChatMessage) (turn_count : Nat)
        (user : String),
      10 ≤ (chat env history turn_count user).1.iteration →
        (chat env history turn_count user).1.chunks.getLast?
          = some (.text maxIterationsNotice)) := by
  have hiter : ∀ (env : ChatEnv) (history : List ChatMessage)
      (turn_count : Nat) (user : String),
      (chat env history turn_count user).1.iteration
        = (chatLoop env 10 0
            ((if history = [] then [plainMessage "system" env.system_prompt]
              else history) ++ [plainMessage "user" user])).iteration := by
    intro env history turn_count user
    simp only [chat]
  have hcap : ∀ (env : ChatEnv) (history : List ChatMessage)
      (turn_count : Nat) (user : String),
      (10 ≤ (chat env history turn_count user).1.iteration ↔
        ∀ i, i < 9 → continuesIteration (env.svc i) = true) := by
    intro env history turn_count user
    rw [hiter]
    have h := chatLoop_reaches_cap env 10 0
      ((if history = [] then [plainMessage "system" env.system_prompt]
        else history) ++ [plainMessage "user" user])
    simp only [Nat.zero_add] at h
    rw [h]
    constructor
    · intro hall i hi
      exact hall i (by omega) (by omega)
    · intro hall i _ hi
      exact hall i (by omega)
  have hlast : ∀ (env : ChatEnv) (history : List ChatMessage)
      (turn_count : Nat) (user : String),
      10 ≤ (chat env history turn_count user).1.iteration →
      (chat env history turn_count user).1.chunks.getLast?
        = some (.text maxIterationsNotice) := by
    intro env history turn_count user hge
    rw [hiter] at hge
    simp only [chat]
    rw [if_pos hge, List.getLast?_concat]
  refine ⟨?_, ?_, hcap, hlast⟩
  · intro env history turn_count user
    simp only [chat]
    exact chatLoop_calls_le env 10 0 _
  · intro env history turn_count user hall
    have hge : 10 ≤ (chat env history turn_count user).1.iteration :=
      (hcap env history turn_count user).mpr (fun i _ => hall i)
    obtain ⟨hc, hm⟩ := chatLoop_always_tools env hall 10 0
      ((if history = [] then [plainMessage "system" env.system_prompt]
        else history) ++ [plainMessage "user" user])
    refine ⟨?_, hlast env history turn_count user hge, ?_⟩
    · simp only [chat]
      exact hc
    · rw [hiter] at hge
      intro c hcmem
      simp only [chat] at hcmem
      rw [if_pos hge] at hcmem
      rcases List.mem_append.mp hcmem with h3 | h3
      · rcases hm c h3 with h | h
        · exact Or.inl h
        · exact Or.inr (Or.inl h)
      · simp at h3
        exact Or.inr (Or.inr h3)

/-- C1 counterexample: with a completion service that requests tool calls on
the first nine iterations and returns a terminal stop with text "Hallo" on
the tenth, the loop exits through the stop branch, yet the
"maximum iterations reached" notice is still yielded, as the last chunk
right after the stop text — so the notice is not emitted only when the loop
exits because the cap was reached. -/
theorem chat_notice_after_stop_counterexample :
    stopOnTenthEnv.svc 9 = .ok (stopResponse "Hallo") ∧
    (stopResponse "Hallo").finish_reason = "stop" ∧
    (chat stopOnTenthEnv [] 0 "Frage").1.chunks
      = List.replicate 9 (Chunk.text (toolBanner "noop"))
        ++ [Chunk.text "Hallo", Chunk.text maxIterationsNotice] := by
  refine ⟨rfl, rfl, rfl⟩
